import Mathlib

/-!
Verification of the PaisaGuardian fraud-detection core.

Shallow embedding of the Python sources under `backend/logic/`:
`agent_policy.py`, `risk_scoring.py`, `ml_reasoning.py`,
`learning_engine.py` and the endpoint plumbing in `main.py`.
Scores are modelled as rationals (`ℚ`), Python dicts of sets as
association lists, and fallible endpoint code with `Except`.
-/

namespace PaisaGuardian

/-! ## String helpers

Executable stand-ins for the Python string and `re` operations the
embedded functions use (`in`, `str.startswith`, `re.match`, `re.search`
on the concrete patterns appearing in the sources). -/

/-- `leadsList p l` is true when `p` is an initial segment of `l`
(Python `str.startswith` on character lists). -/
def leadsList : List Char → List Char → Bool
  | [], _ => true
  | _ :: _, [] => false
  | a :: as, b :: bs => a = b && leadsList as bs

/-- `subList p l` is true when `p` occurs as a contiguous run inside `l`
(Python `p in l` for strings). -/
def subList (p : List Char) : List Char → Bool
  | [] => leadsList p []
  | c :: rest => leadsList p (c :: rest) || subList p rest

/-- Python `pat in s` on strings. -/
def strContains (s pat : String) : Bool := subList pat.data s.data

/-- Python `s.startswith pat`. -/
def strStarts (s pat : String) : Bool := leadsList pat.data s.data

/-- Remainder of `l` after the first occurrence of `p`, if any. -/
def dropAfterFirst (p : List Char) : List Char → Option (List Char)
  | [] => if leadsList p [] then some [] else none
  | c :: rest =>
    if leadsList p (c :: rest) then some ((c :: rest).drop p.length)
    else dropAfterFirst p rest

/-- `re.search(a ++ ".*" ++ b, s)`: an occurrence of `a` followed,
possibly after other characters, by an occurrence of `b` (the sources
apply this to single-line lowercased URLs, so `.` matching anything is
faithful). -/
def searchSeq (a b s : String) : Bool :=
  match dropAfterFirst a.data s.data with
  | some r => subList b.data r
  | none => false

/-- One group `\d{1,3}\.` of the IPv4 regular expression: consumes the
leading digit run (which must have length 1 to 3) and a following dot. -/
def ipv4Group (l : List Char) : Option (List Char) :=
  let run := l.takeWhile Char.isDigit
  let rest := l.dropWhile Char.isDigit
  if 1 ≤ run.length ∧ run.length ≤ 3 then
    match rest with
    | '.' :: r => some r
    | _ => none
  else none

/-- `re.match(r"\d{1,3}\.\d{1,3}\.\d{1,3}\.\d{1,3}", ·)` anchored at the
start of the character list. -/
def ipv4AtStart (l : List Char) : Bool :=
  match ipv4Group l with
  | some r1 =>
    match ipv4Group r1 with
    | some r2 =>
      match ipv4Group r2 with
      | some r3 =>
        match r3 with
        | c :: _ => c.isDigit
        | [] => false
      | none => false
    | none => false
  | none => false

/-- `re.search` variant of the IPv4 pattern: a match starting anywhere. -/
def ipv4Search : List Char → Bool
  | [] => false
  | c :: rest => ipv4AtStart (c :: rest) || ipv4Search rest

/-- After at least one digit has been consumed: skip further digits and
require an `'@'` (tail of the regex `\d+@`). -/
def digitRunAt : List Char → Bool
  | [] => false
  | '@' :: _ => true
  | c :: rest => c.isDigit && digitRunAt rest

/-- Matches `\d+@` at the start of the list: one or more digits then `'@'`. -/
def digitsThenAt : List Char → Bool
  | [] => false
  | c :: rest => c.isDigit && digitRunAt rest

/-- `re.search(r"[a-z]+\d+@", ·)`: somewhere a lowercase letter directly
followed by a digit run and an `'@'` (the final letter of the `[a-z]+`
group witnesses the match). -/
def lowerDigitsAtSearch : List Char → Bool
  | [] => false
  | c :: rest => (c.isLower && digitsThenAt rest) || lowerDigitsAtSearch rest

/-- Ten consecutive digits followed by the given suffix, anchored at the
start of the list (`re.match(r"\d{10}" ++ suffix, ·)`). -/
def tenDigitsThen (suf : List Char) (l : List Char) : Bool :=
  let d := l.take 10
  d.length = 10 && d.all Char.isDigit && leadsList suf (l.drop 10)

/-- `re.search` variant of `\d{10}` followed by `suf`. -/
def tenDigitsThenSearch (suf : List Char) : List Char → Bool
  | [] => false
  | c :: rest => tenDigitsThen suf (c :: rest) || tenDigitsThenSearch suf rest

/-- Python `str.lower()` (ASCII case folding, which covers every cased
character the embedded tables and inputs use). -/
def lowerString (s : String) : String := String.mk (s.data.map Char.toLower)

/-- Split a character list at every occurrence of a separator character,
keeping empty pieces (Python `str.split(sep)`). -/
def splitOnChar (sep : Char) : List Char → List (List Char)
  | [] => [[]]
  | c :: rest =>
    let r := splitOnChar sep rest
    if c = sep then [] :: r
    else
      match r with
      | h :: t => (c :: h) :: t
      | [] => [[c]]

/-- Python `s.split(sep)` for a one-character separator. -/
def strSplitOnChar (s : String) (sep : Char) : List String :=
  (splitOnChar sep s.data).map String.mk

/-- Python `str.split()` on a name: whitespace split discarding empties
(the sources only feed it space-separated names). -/
def splitWords (s : String) : List String :=
  (strSplitOnChar s ' ').filter (fun w => w ≠ "")

/-- Left-to-right, non-overlapping replacement of a non-empty pattern
(Python `str.replace`). -/
def replaceList (pat rep : List Char) (l : List Char) : List Char :=
  match l with
  | [] => []
  | c :: rest =>
    if leadsList pat (c :: rest) && !pat.isEmpty then
      rep ++ replaceList pat rep (rest.drop (pat.length - 1))
    else c :: replaceList pat rep rest
termination_by l.length
decreasing_by
  · simp only [List.length_drop, List.length_cons]
    omega
  · simp only [List.length_cons]
    omega

/-- Python `s.replace(pat, rep)` (the sources only use non-empty
patterns). -/
def strReplace (s pat rep : String) : String :=
  String.mk (replaceList pat.data rep.data s.data)

/-- Python `sep.join(parts)`. -/
def joinWith (sep : String) : List String → String
  | [] => ""
  | [x] => x
  | x :: rest => x ++ sep ++ joinWith sep rest

/-- Python `min` on two naturals, kept kernel-computable. -/
def natMin (a b : ℕ) : ℕ := if a ≤ b then a else b

/-- Python `min` on two rationals, kept kernel-computable. -/
def pyMin (a b : ℚ) : ℚ := if a ≤ b then a else b

/-- Python `max` on two rationals, kept kernel-computable. -/
def pyMax (a b : ℚ) : ℚ := if a ≤ b then b else a

/-- `pyMin` agrees with the order-theoretic `min`. -/
theorem pyMin_eq (a b : ℚ) : pyMin a b = min a b := by
  unfold pyMin
  rw [min_def]

/-- `pyMax` agrees with the order-theoretic `max`. -/
theorem pyMax_eq (a b : ℚ) : pyMax a b = max a b := by
  unfold pyMax
  rw [max_def]

/-! ## `agent_policy.py` -/

/-- `RiskLevel` enum of `agent_policy.py`. -/
inductive RiskLevel where
  | low
  | medium
  | high
  | critical
deriving DecidableEq, Repr

/-- The `.value` string of each `RiskLevel` member. -/
def RiskLevel.val : RiskLevel → String
  | .low => "low"
  | .medium => "medium"
  | .high => "high"
  | .critical => "critical"

/-- `ActionType` enum of `agent_policy.py`. -/
inductive ActionType where
  | allow
  | monitor
  | warn
  | confirm
  | block
  | abortTransaction
  | redirect
  | disableAction
deriving DecidableEq, Repr

/-- Threshold fields of the `AgentPolicy` dataclass. -/
structure AgentPolicy where
  lowThreshold : ℚ
  mediumThreshold : ℚ
  highThreshold : ℚ
deriving Repr

/-- Default `AgentPolicy()` instance (thresholds 40 / 70 / 100). -/
def agentPolicyDefault : AgentPolicy := ⟨40, 70, 100⟩

/-- `AgentPolicy.classify_risk`. -/
def classify_risk (p : AgentPolicy) (score : ℚ) : RiskLevel :=
  if score < p.lowThreshold then .low
  else if score < p.mediumThreshold then .medium
  else if score < p.highThreshold then .high
  else .critical

/-- Context dictionary consumed by `AgentPolicy.determine_action`:
`platform = context.get('platform','unknown')`,
`txType = context.get('type','unknown')`, and
`intentType = context.get('intent_type')` (absent key gives `none`). -/
structure ActionCtx where
  platform : String
  txType : String
  intentType : Option String
deriving DecidableEq, Repr

/-- `AgentPolicy.determine_action`. -/
def determine_action (riskLevel : RiskLevel) (ctx : ActionCtx) : ActionType :=
  match riskLevel with
  | .low => .monitor
  | .medium =>
    if ctx.txType = "upi" ∨ ctx.txType = "payment" ∨ ctx.txType = "transaction" then
      .confirm
    else .warn
  | .high =>
    if ctx.txType = "upi" ∧ ctx.intentType = some "collect" then .abortTransaction
    else if ctx.platform = "chrome" then .redirect
    else .block
  | .critical =>
    if ctx.txType = "upi" then .abortTransaction
    else if ctx.platform = "chrome" then .redirect
    else .block

/-! ## `risk_scoring.py`: `get_risk_level` -/

/-- `get_risk_level` (risk_scoring.py): the response-level score-to-level
mapping with boundaries 25 / 50 / 75. -/
def get_risk_level (riskScore : ℚ) : String :=
  if 75 ≤ riskScore then "critical"
  else if 50 ≤ riskScore then "high"
  else if 25 ≤ riskScore then "medium"
  else "low"

/-! ## `learning_engine.py`

`LearningEngine` instance state, its whitelist/blacklist dictionaries of
sets (association lists from entity type to the list of member ids), and
the operations `check_whitelist`, `check_blacklist`, `adjust_risk_score`,
`process_feedback` and `report_fraud`.  Disk persistence
(`save_data`/`load_data`) and timestamps are I/O and are not modelled. -/

/-- Dictionary from entity type to a set of entity ids (`Dict[str, Set[str]]`),
as an association list; ids are kept without duplicates so that the
idempotent Python `set.add` is mirrored by a guarded append. -/
def EntityDict := List (String × List String)
deriving DecidableEq, Repr

/-- Dictionary lookup (`d[k]` / `d.get(k)`). -/
def lookupKey (d : EntityDict) (k : String) : Option (List String) :=
  match d with
  | [] => none
  | (k', v) :: rest => if k' = k then some v else lookupKey rest k

/-- Python `k in d` for the dictionary. -/
def hasKey (d : EntityDict) (k : String) : Bool :=
  (lookupKey d k).isSome

/-- Membership of `id` in the set stored under `k` (false when the key is
absent). -/
def memberEntry (d : EntityDict) (k id : String) : Bool :=
  match lookupKey d k with
  | some l => l.contains id
  | none => false

/-- `d[k].add(id)`: adds `id` to the set under `k`; a no-op when the id is
already present (Python set semantics) — callers only invoke it when the
key exists. -/
def addEntry (d : EntityDict) (k id : String) : EntityDict :=
  match d with
  | [] => []
  | (k', v) :: rest =>
    if k' = k then (k', if v.contains id then v else v ++ [id]) :: rest
    else (k', v) :: addEntry rest k id

/-- The `metrics` counter dictionary of `LearningEngine`. -/
structure LearnMetrics where
  totalFeedbacks : ℕ
  safeFeedbacks : ℕ
  fraudFeedbacks : ℕ
  falsePositives : ℕ
  falseNegatives : ℕ
  truePositives : ℕ
  trueNegatives : ℕ
deriving DecidableEq, Repr

/-- The `weight_adjustments` dictionary (keys `rules_score`, `nlp_score`,
`anomaly_score`). -/
@[ext]
structure WeightAdj where
  rules : ℚ
  nlp : ℚ
  anomaly : ℚ
deriving DecidableEq, Repr

/-- One entry of `feedback_history` (timestamp omitted — I/O clock). -/
structure FeedbackEntry where
  entityId : String
  entityType : String
  feedback : String
  originalRiskScore : ℚ
  userId : String
  comment : Option String
deriving DecidableEq, Repr

/-- One fraud report appended to the `fraud_reports` ledger
(timestamp and free-form `additional_info` omitted). -/
structure FraudReport where
  entityId : String
  entityType : String
  userId : String
  description : Option String
  fraudCategory : Option String
  amountLost : Option ℚ
deriving DecidableEq, Repr

/-- The mutable state of a `LearningEngine` instance (analysis history and
user settings are not touched by the verified operations and are left out). -/
structure LearnState where
  whitelist : EntityDict
  blacklist : EntityDict
  feedbackHistory : List FeedbackEntry
  metrics : LearnMetrics
  weightAdjustments : WeightAdj
  fraudReports : List (String × List FraudReport)
  fraudReportThreshold : ℕ
deriving DecidableEq, Repr

/-- Fresh `LearningEngine()` state (before `load_data`, which is I/O):
the five entity-type keys with empty sets, zeroed metrics and weight
deltas, empty ledgers, threshold 50. -/
def initialLearnState : LearnState where
  whitelist := [("urls", []), ("domains", []), ("upi_ids", []), ("senders", []), ("phone_numbers", [])]
  blacklist := [("urls", []), ("domains", []), ("upi_ids", []), ("senders", []), ("phone_numbers", [])]
  feedbackHistory := []
  metrics := ⟨0, 0, 0, 0, 0, 0, 0⟩
  weightAdjustments := ⟨0, 0, 0⟩
  fraudReports := []
  fraudReportThreshold := 50

/-- `LearningEngine.check_whitelist`. -/
def check_whitelist (st : LearnState) (entityId entityType : String) : Bool :=
  memberEntry st.whitelist entityType entityId

/-- `LearningEngine.check_blacklist`. -/
def check_blacklist (st : LearnState) (entityId entityType : String) : Bool :=
  memberEntry st.blacklist entityType entityId

/-- `LearningEngine.adjust_risk_score`: whitelist check first
(`max(0, original - 50)`), then blacklist check recomputing from the
original score (`min(100, original + 60)`), which therefore overrides the
whitelist adjustment. -/
def adjust_risk_score (st : LearnState) (entityId entityType : String)
    (originalScore : ℚ) : ℚ × List String :=
  let adjusted := originalScore
  let reasons : List String := []
  let (adjusted, reasons) :=
    if check_whitelist st entityId entityType then
      (pyMax 0 (originalScore - 50), reasons ++ ["Whitelisted based on user feedback"])
    else (adjusted, reasons)
  let (adjusted, reasons) :=
    if check_blacklist st entityId entityType then
      (pyMin 100 (originalScore + 60), reasons ++ ["Blacklisted based on user feedback"])
    else (adjusted, reasons)
  (adjusted, reasons)

/-- `LearningEngine._adjust_weights_for_false_positive`. -/
def adjust_weights_for_false_positive (w : WeightAdj) (riskScore : ℚ) : WeightAdj :=
  let adjustment : ℚ := -0.01
  if 70 ≤ riskScore then
    { w with nlp := w.nlp + adjustment, rules := w.rules + adjustment }
  else if 40 ≤ riskScore then
    { w with rules := w.rules + adjustment * 2 }
  else w

/-- `LearningEngine._adjust_weights_for_false_negative`. -/
def adjust_weights_for_false_negative (w : WeightAdj) (riskScore : ℚ) : WeightAdj :=
  let adjustment : ℚ := 0.01
  if riskScore < 20 then
    { w with nlp := w.nlp + adjustment * 2, rules := w.rules + adjustment * 2,
             anomaly := w.anomaly + adjustment }
  else if riskScore < 40 then
    { w with nlp := w.nlp + adjustment, rules := w.rules + adjustment }
  else w

/-- Result dictionary of `LearningEngine.process_feedback`. -/
structure FeedbackResult where
  entityId : String
  entityType : String
  feedback : String
  addedToWhitelist : Bool
  addedToBlacklist : Bool
  learningApplied : Bool
  message : String
deriving DecidableEq, Repr

/-- `LearningEngine.process_feedback`: updates metrics, whitelist or
blacklist (only when the entity type is a known key), weight deltas on
false positives/negatives, and appends to the feedback history.  The
periodic `save_data` call is I/O and not modelled. -/
def process_feedback (st : LearnState) (entityId entityType feedback : String)
    (originalRiskScore : ℚ) (userId : String) (comment : Option String) :
    LearnState × FeedbackResult :=
  let result : FeedbackResult :=
    ⟨entityId, entityType, feedback, false, false, false, ""⟩
  let metrics := { st.metrics with totalFeedbacks := st.metrics.totalFeedbacks + 1 }
  let wasFlaggedAsFraud := 40 ≤ originalRiskScore
  let (wl, bl, metrics, weights, result) :=
    if feedback = "safe" then
      let metrics := { metrics with safeFeedbacks := metrics.safeFeedbacks + 1 }
      let (wl, result) :=
        if hasKey st.whitelist entityType then
          (addEntry st.whitelist entityType entityId,
           { result with addedToWhitelist := true,
                         message := "Added to whitelist. Will be trusted in future." })
        else (st.whitelist, result)
      if wasFlaggedAsFraud then
        (wl, st.blacklist,
         { metrics with falsePositives := metrics.falsePositives + 1 },
         adjust_weights_for_false_positive st.weightAdjustments originalRiskScore,
         { result with learningApplied := true })
      else
        (wl, st.blacklist,
         { metrics with trueNegatives := metrics.trueNegatives + 1 },
         st.weightAdjustments, result)
    else if feedback = "fraud" then
      let metrics := { metrics with fraudFeedbacks := metrics.fraudFeedbacks + 1 }
      let (bl, result) :=
        if hasKey st.blacklist entityType then
          (addEntry st.blacklist entityType entityId,
           { result with addedToBlacklist := true,
                         message := "Added to blacklist. Will be blocked in future." })
        else (st.blacklist, result)
      if wasFlaggedAsFraud then
        (st.whitelist, bl,
         { metrics with truePositives := metrics.truePositives + 1 },
         st.weightAdjustments, result)
      else
        (st.whitelist, bl,
         { metrics with falseNegatives := metrics.falseNegatives + 1 },
         adjust_weights_for_false_negative st.weightAdjustments originalRiskScore,
         { result with learningApplied := true })
    else (st.whitelist, st.blacklist, metrics, st.weightAdjustments, result)
  let entry : FeedbackEntry :=
    ⟨entityId, entityType, feedback, originalRiskScore, userId, comment⟩
  ({ st with whitelist := wl, blacklist := bl, metrics := metrics,
             weightAdjustments := weights,
             feedbackHistory := st.feedbackHistory ++ [entry] },
   result)

/-- Result dictionary of `LearningEngine.report_fraud`. -/
structure ReportResult where
  entityId : String
  entityType : String
  reportCount : ℕ
  threshold : ℕ
  blacklisted : Bool
  message : String
deriving DecidableEq, Repr

/-- The default submission message of `report_fraud`. -/
def reportSubmittedMessage (n : ℕ) : String :=
  "Fraud report submitted successfully. Total reports for this entity: " ++ toString n

/-- The one-time automatic-blacklist alert message of `report_fraud`. -/
def autoBlacklistMessage (entityType : String) (n : ℕ) : String :=
  "⚠️ ALERT: Entity automatically blacklisted after " ++ toString n ++
  " fraud reports. This " ++ entityType ++ " will now be blocked for all users."

/-- The already-blacklisted message of `report_fraud`. -/
def alreadyBlacklistedMessage (n : ℕ) : String :=
  "Entity already blacklisted. Total reports: " ++ toString n

/-- Append a report to the per-entity ledger, creating the entity key if
absent (`if entity_id not in self.fraud_reports: ... = []` then append). -/
def addReport (ledger : List (String × List FraudReport)) (entityId : String)
    (rep : FraudReport) : List (String × List FraudReport) :=
  match ledger with
  | [] => [(entityId, [rep])]
  | (k, l) :: rest =>
    if k = entityId then (k, l ++ [rep]) :: rest
    else (k, l) :: addReport rest entityId rep

/-- Report count for an entity in the ledger. -/
def reportCountOf (ledger : List (String × List FraudReport)) (entityId : String) : ℕ :=
  match ledger with
  | [] => 0
  | (k, l) :: rest => if k = entityId then l.length else reportCountOf rest entityId

/-- `LearningEngine.report_fraud`: appends the report, and when the
running count reaches the threshold adds the entity to its type's
blacklist exactly once (subsequent reports only re-state `blacklisted`). -/
def report_fraud (st : LearnState) (entityId entityType userId : String)
    (description fraudCategory : Option String) (amountLost : Option ℚ) :
    LearnState × ReportResult :=
  let rep : FraudReport :=
    ⟨entityId, entityType, userId, description, fraudCategory, amountLost⟩
  let reports := addReport st.fraudReports entityId rep
  let reportCount := reportCountOf reports entityId
  let result : ReportResult :=
    ⟨entityId, entityType, reportCount, st.fraudReportThreshold, false,
     reportSubmittedMessage reportCount⟩
  let (bl, result) :=
    if st.fraudReportThreshold ≤ reportCount then
      if hasKey st.blacklist entityType then
        if memberEntry st.blacklist entityType entityId then
          (st.blacklist,
           { result with blacklisted := true,
                         message := alreadyBlacklistedMessage reportCount })
        else
          (addEntry st.blacklist entityType entityId,
           { result with blacklisted := true,
                         message := autoBlacklistMessage entityType reportCount })
      else (st.blacklist, result)
    else (st.blacklist, result)
  ({ st with blacklist := bl, fraudReports := reports }, result)

/-! ## `main.py`: `/report/fraud` endpoint validation -/

/-- The valid entity types accepted by the `/report/fraud` endpoint. -/
def validEntityTypes : List String :=
  ["phone_numbers", "upi_ids", "urls", "senders", "domains"]

/-- The 400 detail message of the `/report/fraud` endpoint. -/
def invalidEntityTypeMessage : String :=
  "Invalid entity_type. Must be one of: phone_numbers, upi_ids, urls, senders, domains"

/-- The `/report/fraud` endpoint (`main.report_fraud`): rejects an unknown
`entity_type` with a 400 validation error before any learning-engine call,
otherwise delegates to `LearningEngine.report_fraud`. -/
def report_fraud_endpoint (st : LearnState) (entityId entityType userId : String)
    (description fraudCategory : Option String) (amountLost : Option ℚ) :
    LearnState × Except String ReportResult :=
  if validEntityTypes.contains entityType then
    let (st', r) := report_fraud st entityId entityType userId description fraudCategory amountLost
    (st', .ok r)
  else (st, .error invalidEntityTypeMessage)

/-! ## `ml_reasoning.py`: `RiskCombiner.combine_scores` -/

/-- `dict.get(k, d)` on the combiner's weight dictionary. -/
def weightsGetD (w : List (String × ℚ)) (k : String) (d : ℚ) : ℚ :=
  match w with
  | [] => d
  | (k', v) :: rest => if k' = k then v else weightsGetD rest k d

/-- The default `RiskCombiner` weights (`rules_score`/`nlp_score`/`anomaly_score`);
the dictionary never carries a `domain_score` key unless a caller adds one. -/
def defaultCombinerWeights : List (String × ℚ) :=
  [("rules_score", 0.50), ("nlp_score", 0.30), ("anomaly_score", 0.20)]

/-- `RiskCombiner.combine_scores`: weighted linear sum of the three base
category scores (direct key accesses, which always succeed on the
combiner's weight dictionary) plus each additional score at its weight,
defaulting to `0.1`; the result is returned uncapped. -/
def combine_scores (w : List (String × ℚ)) (rulesScore nlpScore anomalyScore : ℚ)
    (additionalScores : List (String × ℚ)) : ℚ :=
  let finalScore :=
    rulesScore * weightsGetD w "rules_score" 0 +
    nlpScore * weightsGetD w "nlp_score" 0 +
    anomalyScore * weightsGetD w "anomaly_score" 0
  additionalScores.foldl (fun acc p => acc + p.2 * weightsGetD w p.1 0.1) finalScore

/-! ## Helper lemmas on the dictionary operations -/

/-- Appending a report to the ledger increments that entity's count by one. -/
theorem reportCountOf_addReport (ledger : List (String × List FraudReport))
    (entityId : String) (rep : FraudReport) :
    reportCountOf (addReport ledger entityId rep) entityId =
      reportCountOf ledger entityId + 1 := by
  induction ledger with
  | nil => simp [addReport, reportCountOf]
  | cons hd tl ih =>
    obtain ⟨k, l⟩ := hd
    by_cases hk : k = entityId
    · simp [addReport, reportCountOf, hk]
    · simp [addReport, reportCountOf, hk, ih]

/-- Adding an id under an existing key makes it a member. -/
theorem memberEntry_addEntry_self (d : EntityDict) (k id : String)
    (h : hasKey d k = true) : memberEntry (addEntry d k id) k id = true := by
  induction d with
  | nil => simp [hasKey, lookupKey] at h
  | cons hd tl ih =>
    obtain ⟨k', v⟩ := hd
    by_cases hk : k' = k
    · by_cases hv : id ∈ v <;>
        simp [addEntry, memberEntry, lookupKey, hk, hv]
    · have h' : hasKey tl k = true := by
        simpa [hasKey, lookupKey, hk] using h
      simp [addEntry, memberEntry, lookupKey, hk]
      simpa [memberEntry] using ih h'

/-! ## Claim C1 -/

/-- Modelled from the amended claim text: at HIGH and CRITICAL the action
is ABORT_TRANSACTION exactly when the signal is `upi` and — at the HIGH
level only — the intent is `collect`; otherwise REDIRECT on `chrome`,
otherwise BLOCK, in that order of precedence. -/
def amendedHighCriticalAction (level : RiskLevel) (ctx : ActionCtx) : ActionType :=
  if ctx.txType = "upi" ∧ (level = .high → ctx.intentType = some "collect") then
    .abortTransaction
  else if ctx.platform = "chrome" then .redirect
  else .block

/-- C1 (amended): for HIGH the action is ABORT_TRANSACTION exactly when
signal_type is upi and intent_type is collect, but for CRITICAL the code
aborts for every upi signal regardless of intent_type; in both levels the
fallback precedence is chrome-REDIRECT then generic BLOCK. -/
theorem C1_high_critical_action_precedence (ctx : ActionCtx) :
    determine_action .high ctx = amendedHighCriticalAction .high ctx ∧
    determine_action .critical ctx = amendedHighCriticalAction .critical ctx ∧
    (determine_action .high ctx = .abortTransaction ↔
      ctx.txType = "upi" ∧ ctx.intentType = some "collect") ∧
    (determine_action .critical ctx = .abortTransaction ↔ ctx.txType = "upi") := by
  obtain ⟨p, t, i⟩ := ctx
  refine ⟨?_, ?_, ?_, ?_⟩ <;>
    simp only [determine_action, amendedHighCriticalAction] <;>
    split_ifs <;> simp_all

/-- C1 counterexample: at CRITICAL with an upi signal whose intent is
`pay` (not `collect`) on android, the code returns ABORT_TRANSACTION
while the claim's table demands the generic BLOCK. -/
theorem C1_counterexample :
    determine_action .critical ⟨"android", "upi", some "pay"⟩ = .abortTransaction ∧
    determine_action .critical ⟨"android", "upi", some "pay"⟩ ≠ .block := by
  decide

/-! ## Claim C2 -/

/-- C2: when an entity is both whitelisted and blacklisted,
`adjust_risk_score` recomputes from the original unadjusted score and
returns `min(100, original + 60)`, overriding the whitelist adjustment;
at `original = 50` this yields `100`, not `max(0, 50 - 50) + 60 = 60`. -/
theorem C2_blacklist_overrides_whitelist (st : LearnState) (eid etype : String)
    (orig : ℚ) (hw : check_whitelist st eid etype = true)
    (hb : check_blacklist st eid etype = true) :
    (adjust_risk_score st eid etype orig).1 = min 100 (orig + 60) ∧
    (orig = 50 → (adjust_risk_score st eid etype orig).1 = 100 ∧
                 max 0 (orig - 50) + 60 ≠ (100 : ℚ)) := by
  constructor
  · simp [adjust_risk_score, hw, hb, pyMin_eq]
  · rintro rfl
    constructor
    · norm_num [adjust_risk_score, hw, hb, pyMin]
    · norm_num

/-- State with one entity simultaneously whitelisted and blacklisted. -/
def c2TestState : LearnState :=
  { initialLearnState with
      whitelist := addEntry initialLearnState.whitelist "urls" "http://both.example",
      blacklist := addEntry initialLearnState.blacklist "urls" "http://both.example" }

/-- C2 witness: concrete doubly-listed entity with original score 50. -/
theorem C2_witness :
    check_whitelist c2TestState "http://both.example" "urls" = true ∧
    check_blacklist c2TestState "http://both.example" "urls" = true ∧
    (adjust_risk_score c2TestState "http://both.example" "urls" 50).1 = 100 := by
  refine ⟨by decide, by decide, ?_⟩
  exact ((C2_blacklist_overrides_whitelist c2TestState "http://both.example" "urls" 50
    (by decide) (by decide)).2 rfl).1

/-! ## Claim C3 -/

/-- C3: each fraud report increments the entity's running count; below
the threshold nothing is blacklisted; the report whose count first
reaches the threshold (entity not yet on its type's blacklist) adds the
entity and returns the one-time auto-blacklist message; every later
report returns `blacklisted = true` with the already-blacklisted message
and leaves the blacklist unchanged. -/
theorem C3_report_fraud_auto_blacklist_once (st : LearnState)
    (eid etype uid : String) (desc cat : Option String) (amt : Option ℚ) :
    (report_fraud st eid etype uid desc cat amt).2.reportCount =
      reportCountOf st.fraudReports eid + 1 ∧
    ((report_fraud st eid etype uid desc cat amt).2.reportCount <
        st.fraudReportThreshold →
      (report_fraud st eid etype uid desc cat amt).2.blacklisted = false ∧
      (report_fraud st eid etype uid desc cat amt).1.blacklist = st.blacklist) ∧
    (st.fraudReportThreshold ≤
        (report_fraud st eid etype uid desc cat amt).2.reportCount →
      hasKey st.blacklist etype = true →
      memberEntry st.blacklist etype eid = false →
      (report_fraud st eid etype uid desc cat amt).2.blacklisted = true ∧
      (report_fraud st eid etype uid desc cat amt).2.message =
        autoBlacklistMessage etype
          (report_fraud st eid etype uid desc cat amt).2.reportCount ∧
      (report_fraud st eid etype uid desc cat amt).1.blacklist =
        addEntry st.blacklist etype eid ∧
      memberEntry (report_fraud st eid etype uid desc cat amt).1.blacklist
        etype eid = true) ∧
    (st.fraudReportThreshold ≤
        (report_fraud st eid etype uid desc cat amt).2.reportCount →
      memberEntry st.blacklist etype eid = true →
      (report_fraud st eid etype uid desc cat amt).2.blacklisted = true ∧
      (report_fraud st eid etype uid desc cat amt).2.message =
        alreadyBlacklistedMessage
          (report_fraud st eid etype uid desc cat amt).2.reportCount ∧
      (report_fraud st eid etype uid desc cat amt).1.blacklist = st.blacklist) := by
  have hmem : memberEntry st.blacklist etype eid = true →
      hasKey st.blacklist etype = true := by
    intro h
    unfold memberEntry at h
    unfold hasKey
    cases hlk : lookupKey st.blacklist etype <;> simp [hlk] at h ⊢
  unfold report_fraud
  simp only [reportCountOf_addReport]
  split_ifs with hthr hkey hmem'
  · refine ⟨rfl, ?_, ?_, ?_⟩
    · intro h
      exact absurd hthr (by dsimp only at h; omega)
    · intro _ _ hm
      rw [hmem'] at hm
      cases hm
    · intro _ _
      exact ⟨rfl, rfl, rfl⟩
  · refine ⟨rfl, ?_, ?_, ?_⟩
    · intro h
      exact absurd hthr (by dsimp only at h; omega)
    · intro _ _ _
      exact ⟨rfl, rfl, rfl, memberEntry_addEntry_self st.blacklist etype eid hkey⟩
    · intro _ hm
      rw [hm] at hmem'
      cases hmem' rfl
  · refine ⟨rfl, ?_, ?_, ?_⟩
    · intro h
      exact absurd hthr (by dsimp only at h; omega)
    · intro _ hk _
      exact absurd hk hkey
    · intro _ hm
      exact absurd (hmem hm) hkey
  · refine ⟨rfl, fun _ => ⟨rfl, rfl⟩, ?_, ?_⟩
    · intro h _ _
      exact absurd hthr (by dsimp only at h; omega)
    · intro h _
      exact absurd hthr (by dsimp only at h; omega)

/-- Seed report used to pre-populate the C3 witness ledger. -/
def c3Report : FraudReport := ⟨"scam@upi", "upi_ids", "seed", none, none, none⟩

/-- Fresh learning state with 48 prior reports for one entity. -/
def c3State0 : LearnState :=
  { initialLearnState with fraudReports := [("scam@upi", List.replicate 48 c3Report)] }

/-- Report number 49 for the entity. -/
def c3Step1 : LearnState × ReportResult :=
  report_fraud c3State0 "scam@upi" "upi_ids" "u1" none none none

/-- Report number 50 for the entity. -/
def c3Step2 : LearnState × ReportResult :=
  report_fraud c3Step1.1 "scam@upi" "upi_ids" "u2" none none none

/-- Report number 51 for the entity. -/
def c3Step3 : LearnState × ReportResult :=
  report_fraud c3Step2.1 "scam@upi" "upi_ids" "u3" none none none

/-- C3 witness: report #49 leaves `blacklisted = false`; #50 blacklists
with the one-time auto-blacklist message; #51 reports `blacklisted = true`
with no further change to the blacklist. -/
theorem C3_witness :
    c3Step1.2.reportCount = 49 ∧ c3Step1.2.blacklisted = false ∧
    c3Step1.1.blacklist = c3State0.blacklist ∧
    c3Step2.2.reportCount = 50 ∧ c3Step2.2.blacklisted = true ∧
    c3Step2.2.message = autoBlacklistMessage "upi_ids" 50 ∧
    memberEntry c3Step2.1.blacklist "upi_ids" "scam@upi" = true ∧
    c3Step3.2.reportCount = 51 ∧ c3Step3.2.blacklisted = true ∧
    c3Step3.1.blacklist = c3Step2.1.blacklist := by
  have h1 := C3_report_fraud_auto_blacklist_once c3State0 "scam@upi" "upi_ids" "u1"
    none none none
  have h2 := C3_report_fraud_auto_blacklist_once c3Step1.1 "scam@upi" "upi_ids" "u2"
    none none none
  have h3 := C3_report_fraud_auto_blacklist_once c3Step2.1 "scam@upi" "upi_ids" "u3"
    none none none
  have e1 : c3Step1.2.reportCount = 49 := by decide
  have e2 : c3Step2.2.reportCount = 50 := by decide
  have e3 : c3Step3.2.reportCount = 51 := by decide
  have b1 := h1.2.1 (by decide)
  have b2 := h2.2.2.1 (by decide) (by decide) (by decide)
  have b3 := h3.2.2.2 (by decide) (by decide)
  have hm2 : c3Step2.2.message = autoBlacklistMessage "upi_ids" c3Step2.2.reportCount :=
    b2.2.1
  rw [e2] at hm2
  exact ⟨e1, b1.1, b1.2, e2, b2.1, hm2, b2.2.2.2, e3, b3.1, b3.2.2⟩

/-! ## Claim C6 -/

/-- C6 (amended): a fraud report with an unknown entity_type is rejected
by the endpoint with a validation error and no state change; feedback
with an unknown entity_type is NOT rejected — it leaves the whitelist and
blacklist untouched but still increments the metrics counter and appends
to the feedback ledger. -/
theorem C6_unknown_entity_type (st : LearnState) (eid etype uid fb : String)
    (desc cat c : Option String) (amt : Option ℚ) (score : ℚ) :
    (validEntityTypes.contains etype = false →
      report_fraud_endpoint st eid etype uid desc cat amt =
        (st, .error invalidEntityTypeMessage)) ∧
    (hasKey st.whitelist etype = false → hasKey st.blacklist etype = false →
      (process_feedback st eid etype fb score uid c).1.whitelist = st.whitelist ∧
      (process_feedback st eid etype fb score uid c).1.blacklist = st.blacklist ∧
      (process_feedback st eid etype fb score uid c).2.addedToWhitelist = false ∧
      (process_feedback st eid etype fb score uid c).2.addedToBlacklist = false ∧
      (process_feedback st eid etype fb score uid c).1.metrics.totalFeedbacks =
        st.metrics.totalFeedbacks + 1 ∧
      (process_feedback st eid etype fb score uid c).1.feedbackHistory =
        st.feedbackHistory ++ [⟨eid, etype, fb, score, uid, c⟩]) := by
  constructor
  · intro h
    have h' : etype ∉ validEntityTypes := by simpa using h
    simp [report_fraud_endpoint, h']
  · intro hw hb
    simp only [process_feedback, hw, hb]
    split_ifs <;> simp_all

/-- C6 counterexample: submitting feedback with the unknown entity_type
`bogus` is not rejected; it mutates learning state (the total-feedback
counter and, the score 80 being a flagged false positive, the rules and
nlp weight deltas). -/
theorem C6_counterexample :
    (process_feedback initialLearnState "x@fraud" "bogus" "safe" 80 "u1" none).1.metrics.totalFeedbacks
      = 1 ∧
    initialLearnState.metrics.totalFeedbacks = 0 ∧
    (process_feedback initialLearnState "x@fraud" "bogus" "safe" 80 "u1" none).1.weightAdjustments.rules
      = -0.01 ∧
    initialLearnState.weightAdjustments.rules = 0 := by
  refine ⟨by decide, by decide, ?_, by decide⟩
  norm_num [process_feedback, adjust_weights_for_false_positive, hasKey, lookupKey,
    initialLearnState]

/-- C6 witness: concrete unknown entity_type `bogus` is rejected by the
fraud-report endpoint with the state unchanged, while feedback on the
same type passes through without touching the whitelist. -/
theorem C6_witness :
    report_fraud_endpoint initialLearnState "x@fraud" "bogus" "u1" none none none =
      (initialLearnState, .error invalidEntityTypeMessage) ∧
    (process_feedback initialLearnState "x@fraud" "bogus" "safe" 80 "u1" none).1.whitelist =
      initialLearnState.whitelist := by
  have h := C6_unknown_entity_type initialLearnState "x@fraud" "bogus" "u1" "safe"
    none none none none 80
  exact ⟨h.1 (by decide), (h.2 (by decide) (by decide)).1⟩

/-! ## Claim C7 -/

/-- C7: the policy classifier maps scores to levels with boundaries
40/70/100 (LOW below 40, MEDIUM in [40,70), HIGH in [70,100), CRITICAL
from 100 up), and in particular classify(39.9)=LOW, classify(40)=MEDIUM,
classify(69.9)=MEDIUM, classify(70)=HIGH, classify(99.9)=HIGH,
classify(100)=CRITICAL. -/
theorem C7_classify_risk_thresholds (s : ℚ) :
    (classify_risk agentPolicyDefault s = .low ↔ s < 40) ∧
    (classify_risk agentPolicyDefault s = .medium ↔ 40 ≤ s ∧ s < 70) ∧
    (classify_risk agentPolicyDefault s = .high ↔ 70 ≤ s ∧ s < 100) ∧
    (classify_risk agentPolicyDefault s = .critical ↔ 100 ≤ s) ∧
    classify_risk agentPolicyDefault 39.9 = .low ∧
    classify_risk agentPolicyDefault 40 = .medium ∧
    classify_risk agentPolicyDefault 69.9 = .medium ∧
    classify_risk agentPolicyDefault 70 = .high ∧
    classify_risk agentPolicyDefault 99.9 = .high ∧
    classify_risk agentPolicyDefault 100 = .critical := by
  refine ⟨?_, ?_, ?_, ?_, by norm_num [classify_risk, agentPolicyDefault],
    by norm_num [classify_risk, agentPolicyDefault],
    by norm_num [classify_risk, agentPolicyDefault],
    by norm_num [classify_risk, agentPolicyDefault],
    by norm_num [classify_risk, agentPolicyDefault],
    by norm_num [classify_risk, agentPolicyDefault]⟩ <;>
  · unfold classify_risk agentPolicyDefault
    split_ifs <;> simp_all <;>
      first
        | linarith
        | (intro _; linarith)
        | (constructor <;> linarith)

/-! ## Claim C8 -/

/-- C8: feedback adjusts the weight deltas exactly as specified (safe and
flagged: −0.01 on nlp and rules when score ≥ 70, −0.02 on rules alone
when 40 ≤ score < 70; fraud and unflagged: +0.02 on nlp and rules and
+0.01 on anomaly when score < 20, +0.01 on nlp and rules when
20 ≤ score < 40) and adds the entity to the corresponding whitelist
(safe) or blacklist (fraud) when its type is a known key. -/
theorem C8_feedback_weight_adjustments (st : LearnState) (eid etype uid : String)
    (c : Option String) (score : ℚ) :
    (70 ≤ score →
      (process_feedback st eid etype "safe" score uid c).1.weightAdjustments =
        ⟨st.weightAdjustments.rules - 0.01, st.weightAdjustments.nlp - 0.01,
         st.weightAdjustments.anomaly⟩) ∧
    (40 ≤ score → score < 70 →
      (process_feedback st eid etype "safe" score uid c).1.weightAdjustments =
        ⟨st.weightAdjustments.rules - 0.02, st.weightAdjustments.nlp,
         st.weightAdjustments.anomaly⟩) ∧
    (hasKey st.whitelist etype = true →
      memberEntry (process_feedback st eid etype "safe" score uid c).1.whitelist
        etype eid = true ∧
      (process_feedback st eid etype "safe" score uid c).2.addedToWhitelist = true) ∧
    (score < 20 →
      (process_feedback st eid etype "fraud" score uid c).1.weightAdjustments =
        ⟨st.weightAdjustments.rules + 0.02, st.weightAdjustments.nlp + 0.02,
         st.weightAdjustments.anomaly + 0.01⟩) ∧
    (20 ≤ score → score < 40 →
      (process_feedback st eid etype "fraud" score uid c).1.weightAdjustments =
        ⟨st.weightAdjustments.rules + 0.01, st.weightAdjustments.nlp + 0.01,
         st.weightAdjustments.anomaly⟩) ∧
    (hasKey st.blacklist etype = true →
      memberEntry (process_feedback st eid etype "fraud" score uid c).1.blacklist
        etype eid = true ∧
      (process_feedback st eid etype "fraud" score uid c).2.addedToBlacklist = true) := by
  refine ⟨?_, ?_, ?_, ?_, ?_, ?_⟩
  · intro h
    simp only [process_feedback, adjust_weights_for_false_positive]
    split_ifs <;> first
      | (exfalso; linarith)
      | (exfalso; simp_all; done)
      | (ext <;> dsimp only <;> ring)
  · intro h1 h2
    simp only [process_feedback, adjust_weights_for_false_positive]
    split_ifs <;> first
      | (exfalso; linarith)
      | (exfalso; simp_all; done)
      | (ext <;> dsimp only <;> ring)
  · intro hk
    simp only [process_feedback]
    split_ifs <;>
      simp_all [memberEntry_addEntry_self]
  · intro h
    simp only [process_feedback, adjust_weights_for_false_negative]
    split_ifs <;> first
      | (exfalso; linarith)
      | (exfalso; simp_all; done)
      | (ext <;> dsimp only <;> ring)
  · intro h1 h2
    simp only [process_feedback, adjust_weights_for_false_negative]
    split_ifs <;> first
      | (exfalso; linarith)
      | (exfalso; simp_all; done)
      | (ext <;> dsimp only <;> ring)
  · intro hk
    simp only [process_feedback]
    split_ifs <;>
      simp_all [memberEntry_addEntry_self]

/-- C8 witness: concrete feedback events on a fresh engine — a safe
verdict on a flagged score 80 moves rules and nlp deltas to −0.01, and a
fraud verdict on an unflagged score 10 moves rules/nlp to +0.02 and
anomaly to +0.01, with the entities landing on the respective lists. -/
theorem C8_witness :
    (process_feedback initialLearnState "http://a.example" "urls" "safe" 80 "u" none).1.weightAdjustments =
      ⟨-0.01, -0.01, 0⟩ ∧
    memberEntry (process_feedback initialLearnState "http://a.example" "urls" "safe" 80 "u" none).1.whitelist
      "urls" "http://a.example" = true ∧
    (process_feedback initialLearnState "scam@upi" "upi_ids" "fraud" 10 "u" none).1.weightAdjustments =
      ⟨0.02, 0.02, 0.01⟩ ∧
    memberEntry (process_feedback initialLearnState "scam@upi" "upi_ids" "fraud" 10 "u" none).1.blacklist
      "upi_ids" "scam@upi" = true := by
  have h1 := C8_feedback_weight_adjustments initialLearnState "http://a.example" "urls"
    "u" none 80
  have h2 := C8_feedback_weight_adjustments initialLearnState "scam@upi" "upi_ids"
    "u" none 10
  refine ⟨?_, (h1.2.2.1 (by decide)).1, ?_, (h2.2.2.2.2.2 (by decide)).1⟩
  · rw [h1.1 (by norm_num)]
    norm_num [initialLearnState]
  · rw [h2.2.2.2.1 (by norm_num)]
    norm_num [initialLearnState]

/-! ## Claim C9 -/

/-- C9: under the default weights, `combine_scores` is the weighted
linear sum rules×0.50 + nlp×0.30 + anomaly×0.20 with the domain score
folded in at the default additional weight 0.10 (no `domain_score` key
exists in the default weight dictionary), and the combined result is not
capped — at all-200 inputs it evaluates to 220. -/
theorem C9_combine_scores_weighted_sum (rules nlp anomaly domain : ℚ) :
    combine_scores defaultCombinerWeights rules nlp anomaly
      [("domain_score", domain)] =
      rules * 0.50 + nlp * 0.30 + anomaly * 0.20 + domain * 0.10 ∧
    combine_scores defaultCombinerWeights 200 200 200 [("domain_score", 200)] = 220 := by
  constructor
  · simp [combine_scores, defaultCombinerWeights, weightsGetD]
    norm_num
  · simp [combine_scores, defaultCombinerWeights, weightsGetD]
    norm_num

/-! ## Claim C10 -/

/-- C10: the response-level mapping `get_risk_level` (boundaries
25/50/75) and the action-policy classifier (boundaries 40/70/100)
disagree exactly on [25,40) ∪ [50,70) ∪ [75,100); at score 55 the
response says "high" while the policy classified MEDIUM. -/
theorem C10_dual_risk_mappings (s : ℚ) :
    (get_risk_level s ≠ (classify_risk agentPolicyDefault s).val ↔
      (25 ≤ s ∧ s < 40) ∨ (50 ≤ s ∧ s < 70) ∨ (75 ≤ s ∧ s < 100)) ∧
    get_risk_level 55 = "high" ∧
    classify_risk agentPolicyDefault 55 = .medium := by
  refine ⟨?_, by norm_num [get_risk_level],
    by norm_num [classify_risk, agentPolicyDefault]⟩
  unfold get_risk_level classify_risk agentPolicyDefault RiskLevel.val
  split_ifs <;> simp_all <;>
    first
      | linarith
      | (intro _; linarith)
      | (constructor <;> linarith)
      | (exfalso; linarith)

/-! ## `risk_scoring.py`: tables -/

/-- `SUSPICIOUS_DOMAINS`. -/
def SUSPICIOUS_DOMAINS : List String :=
  ["bit.ly", "tinyurl.com", "goo.gl", "t.co",
   "paytm-secure", "googlepay-verification", "phonepe-kyc",
   "upi-verify", "bank-alert", "sbi-secure"]

/-- `LEGITIMATE_DOMAINS`. -/
def LEGITIMATE_DOMAINS : List String :=
  ["paytm.com", "phonepe.com", "google.com", "googlepay.com",
   "sbi.co.in", "hdfcbank.com", "icicibank.com", "axisbank.com"]

/-- `PHISHING_DOMAIN_KEYWORDS`. -/
def PHISHING_DOMAIN_KEYWORDS : List String :=
  ["verify", "secure", "update", "confirm", "account", "login",
   "signin", "bank", "payment", "wallet", "support", "help",
   "customer", "service", "alert", "urgent", "suspended",
   "blocked", "security", "authentication", "validation"]

/-- `LEGITIMATE_DOMAINS_TYPOSQUATTING`. -/
def LEGITIMATE_DOMAINS_TYPOSQUATTING : List String :=
  ["paytm.com", "phonepe.com", "googlepay.com", "google.com",
   "amazonpay.com", "amazon.in", "flipkart.com",
   "sbi.co.in", "hdfcbank.com", "icicibank.com", "axisbank.com",
   "paytmbank.com", "kotak.com", "yesbank.in",
   "bharatpe.com", "cred.club", "mobikwik.com"]

/-- `re.search` of any of `UPI_FRAUD_PATTERNS`
(`\d{10}@paytm`, `[a-z]+\d+@`, `test@`, `demo@`, `fake@`) against a
lowercased string; the callers add their weight once and break on the
first matching pattern, which is equivalent to this disjunction. -/
def upiFraudPatternHit (s : String) : Bool :=
  tenDigitsThenSearch "@paytm".data s.data ||
  lowerDigitsAtSearch s.data ||
  strContains s "test@" || strContains s "demo@" || strContains s "fake@"

/-! ## `risk_scoring.py`: `levenshtein_distance` and `detect_typosquatting` -/

/-- Builds the tail of `current_row` of the Levenshtein dynamic program:
for each character of `s2`, the minimum of insertion, deletion and
substitution costs, mirroring the row loop of the source. -/
def levRowRest (c1 : Char) : List Char → List ℕ → ℕ → List ℕ
  | [], _, _ => []
  | _ :: _, [], _ => []
  | c2 :: s2rest, pj :: prest, cur =>
    let pj1 := prest.headD 0
    let v := natMin (natMin (pj1 + 1) (cur + 1)) (pj + if c1 = c2 then 0 else 1)
    v :: levRowRest c1 s2rest prest v

/-- Row-based Levenshtein distance (assumes `s1` at least as long as `s2`,
arranged by the wrapper below, as in the source). -/
def levCore (s1 s2 : List Char) : ℕ :=
  if s2.length = 0 then s1.length
  else
    let initRow := List.range (s2.length + 1)
    let finalRow := s1.enum.foldl
      (fun prev ic => (ic.1 + 1) :: levRowRest ic.2 s2 prev (ic.1 + 1)) initRow
    finalRow.getLastD 0

/-- `levenshtein_distance` (risk_scoring.py): swaps so the first string is
the longer one, then runs the row-based dynamic program. -/
def levenshtein_distance (s1 s2 : String) : ℕ :=
  if s1.length < s2.length then levCore s2.data s1.data
  else levCore s1.data s2.data

/-- Result dictionary of `detect_typosquatting`. -/
structure TyposquatResult where
  isTyposquatting : Bool
  similarTo : String
  similarity : ℚ
  editDistance : ℕ
deriving DecidableEq, Repr

/-- First phase of `detect_typosquatting`: similarity-ratio scan over the
reference domains, keeping the best match with similarity ≥ 0.80 on a
non-identical domain. -/
def typosquatPhase1 (domain : String) : TyposquatResult :=
  LEGITIMATE_DOMAINS_TYPOSQUATTING.foldl
    (fun acc legit =>
      let distance := levenshtein_distance domain legit
      let maxLen := max domain.length legit.length
      let similarity : ℚ := 1 - (distance : ℚ) / (maxLen : ℚ)
      if 0.80 ≤ similarity ∧ domain ≠ legit ∧ acc.similarity < similarity then
        ⟨true, legit, similarity, distance⟩
      else acc)
    ⟨false, "", 0, 0⟩

/-- Second phase of `detect_typosquatting`: substring-containment and
hyphen-stripping checks against each reference base name, breaking on the
first hit with the fixed similarity 0.85. -/
def typosquatPhase2 (domain : String) : List String → TyposquatResult
  | [] => ⟨false, "", 0, 0⟩
  | legit :: rest =>
    let base := (strSplitOnChar legit '.').headD ""
    if (strContains domain base || strContains base domain) && domain ≠ legit then
      ⟨true, legit, 0.85, 0⟩
    else if strContains (strReplace domain "-" "") (strReplace base "-" "") && domain ≠ legit then
      ⟨true, legit, 0.85, 0⟩
    else typosquatPhase2 domain rest

/-- `detect_typosquatting` (risk_scoring.py). -/
def detect_typosquatting (domain0 : String) : TyposquatResult :=
  let domain := strReplace domain0 "www." ""
  let r1 := typosquatPhase1 domain
  if r1.isTyposquatting then r1
  else typosquatPhase2 domain LEGITIMATE_DOMAINS_TYPOSQUATTING

/-- The confusable-character table of `has_homograph_attack`. -/
def homographPairs : List (Char × List Char) :=
  [('a', ['а', 'ạ', 'ă', 'ā']),
   ('e', ['е', 'ē', 'ė', 'ę']),
   ('o', ['о', 'ọ', 'ō', 'ő']),
   ('p', ['р', 'ṗ']),
   ('c', ['с', 'ċ', 'ć']),
   ('x', ['х', 'ẋ']),
   ('y', ['у', 'ȳ', 'ý']),
   ('i', ['і', 'ı', 'ị']),
   ('m', ['м', 'ṁ']),
   ('n', ['п', 'ń', 'ň'])]

/-- `has_homograph_attack`: a confusable character from the table, or a
mix of ASCII and non-ASCII code points in the same domain. -/
def has_homograph_attack (domain : String) : Bool :=
  domain.data.any (fun ch => homographPairs.any (fun p => p.2.contains ch)) ||
  (domain.data.any (fun c => c.toNat < 128) &&
   domain.data.any (fun c => 128 ≤ c.toNat))

/-! ## `risk_scoring.py`: `calculate_url_risk_score`

The `urlparse` call of the source can raise (for example on an invalid
IPv6 bracket netloc); its outcome is therefore an input: `none` models
the `except` branch, `some parts` the parsed components.  The `details`
dictionary of the source is informational and omitted; scores and
indicator lists are modelled exactly. -/

/-- Parsed URL components (`urlparse` result fields used by the source). -/
structure UrlParts where
  scheme : String
  netloc : String
  path : String
  query : String
deriving DecidableEq, Repr

/-- The 15 `SUSPICIOUS_URL_PATTERNS` evaluated on the lowercased URL. -/
def suspiciousUrlPatternChecks (fullUrl : String) : List Bool :=
  [strContains fullUrl "bit.ly", strContains fullUrl "tinyurl.com",
   strContains fullUrl "goo.gl", ipv4Search fullUrl.data,
   strContains fullUrl "free", strContains fullUrl "winner",
   strContains fullUrl "claim", strContains fullUrl "prize",
   strContains fullUrl "lottery", strContains fullUrl "urgent",
   strContains fullUrl "verify", strContains fullUrl "suspend",
   strContains fullUrl "limited", searchSeq "click" "here" fullUrl,
   searchSeq "act" "now" fullUrl]

/-- Number of suspicious URL patterns matching. -/
def suspiciousUrlPatternHits (fullUrl : String) : ℕ :=
  (suspiciousUrlPatternChecks fullUrl).count true

/-- Non-HTTPS check: `+20`. -/
def urlStepHttps (scheme : String) (x : ℚ × List String) : ℚ × List String :=
  if scheme ≠ "https" then (x.1 + 20, x.2 ++ ["Non-HTTPS connection"]) else x

/-- IP-literal host check (`re.match`, anchored): `+30`. -/
def urlStepIp (domain : String) (x : ℚ × List String) : ℚ × List String :=
  if ipv4AtStart domain.data then
    (x.1 + 30, x.2 ++ ["IP address used instead of domain name"])
  else x

/-- URL-shortener / suspicious-domain substring check: `+25`. -/
def urlStepShortener (domain : String) (x : ℚ × List String) : ℚ × List String :=
  if SUSPICIOUS_DOMAINS.any (fun d => strContains domain d) then
    (x.1 + 25, x.2 ++ ["URL shortener or suspicious domain"])
  else x

/-- Suspicious-keyword count: `+ min(count*10, 30)` when positive. -/
def urlStepKeywords (fullUrl : String) (x : ℚ × List String) : ℚ × List String :=
  let count := suspiciousUrlPatternHits fullUrl
  if 0 < count then
    (x.1 + pyMin ((count : ℚ) * 10) 30,
     x.2 ++ ["Contains " ++ toString count ++ " suspicious keywords"])
  else x

/-- Known-legitimate-domain discount: `max(0, score - 30)`. -/
def urlStepLegit (isLegitimate : Bool) (x : ℚ × List String) : ℚ × List String :=
  if isLegitimate then (pyMax 0 (x.1 - 30), x.2) else x

/-- Multiple-subdomain check (`domain.count('.') - 1 > 2`): `+15`. -/
def urlStepSubdomains (domain : String) (x : ℚ × List String) : ℚ × List String :=
  let subdomainCount : ℤ := (domain.data.count '.' : ℤ) - 1
  if 2 < subdomainCount then
    (x.1 + 15, x.2 ++ ["Multiple subdomains (" ++ toString subdomainCount ++ ")"])
  else x

/-- Long-URL check (`len(url) > 100`): `+10`. -/
def urlStepLength (url : String) (x : ℚ × List String) : ℚ × List String :=
  if 100 < url.length then (x.1 + 10, x.2 ++ ["Unusually long URL"]) else x

/-- Phishing-keyword-in-domain check: `+30` for two or more hits, `+15`
for exactly one. -/
def urlStepPhishing (domain : String) (x : ℚ × List String) : ℚ × List String :=
  let c := (PHISHING_DOMAIN_KEYWORDS.filter (fun k => strContains domain k)).length
  if 2 ≤ c then
    (x.1 + 30, x.2 ++ ["Phishing keywords in domain (" ++ toString c ++ " matches)"])
  else if c = 1 then (x.1 + 15, x.2 ++ ["Phishing keyword in domain"])
  else x

/-- Typosquatting check: `+50` (similarity-percentage text formatting of
the indicator is omitted). -/
def urlStepTyposquat (domain : String) (x : ℚ × List String) : ℚ × List String :=
  let t := detect_typosquatting domain
  if t.isTyposquatting then
    (x.1 + 50, x.2 ++ ["⚠️ Typosquatting: Looks like " ++ t.similarTo])
  else x

/-- Homograph-attack check: `+45`. -/
def urlStepHomograph (domain : String) (x : ℚ × List String) : ℚ × List String :=
  if has_homograph_attack domain then
    (x.1 + 45, x.2 ++ ["⚠️ Homograph attack detected (lookalike characters)"])
  else x

/-- Payment-term-in-path/query check on a non-legitimate domain: `+20`. -/
def urlStepPayment (path query : String) (isLegitimate : Bool)
    (x : ℚ × List String) : ℚ × List String :=
  if (["payment", "pay", "checkout", "cart", "order", "transaction"].any
        (fun t => strContains path t || strContains query t)) && !isLegitimate then
    (x.1 + 20, x.2 ++ ["Fake payment page on suspicious domain"])
  else x

/-- `calculate_url_risk_score` (risk_scoring.py): the `except` branch
(`none`) yields the fixed score 50 with the single indicator
"Unable to parse URL"; the parsed branch runs the scoring steps in source
order and caps the result at 100. -/
def calculate_url_risk_score (url : String) (parsed : Option UrlParts) :
    ℚ × List String :=
  match parsed with
  | none => (50, ["Unable to parse URL"])
  | some p =>
    let domain := lowerString p.netloc
    let path := lowerString p.path
    let query := lowerString p.query
    let fullUrl := lowerString url
    let isLegitimate := LEGITIMATE_DOMAINS.any (fun d => strContains domain d)
    let x : ℚ × List String := (0, [])
    let x := urlStepHttps p.scheme x
    let x := urlStepIp domain x
    let x := urlStepShortener domain x
    let x := urlStepKeywords fullUrl x
    let x := urlStepLegit isLegitimate x
    let x := urlStepSubdomains domain x
    let x := urlStepLength url x
    let x := urlStepPhishing domain x
    let x := urlStepTyposquat domain x
    let x := urlStepHomograph domain x
    let x := urlStepPayment path query isLegitimate x
    (pyMin x.1 100, x.2)

/-! ## `risk_scoring.py`: auxiliary detectors

Each takes `none` for a missing or falsy evidence dictionary; the
informational `details` dictionaries of the sources are omitted, scores
and indicator lists are modelled exactly. -/

/-- The Python exception text when `None.lower()` is evaluated. -/
def sslIssuerNoneError : String :=
  "AttributeError: 'NoneType' object has no attribute 'lower'"

/-- The Python exception `urlparse` raises on a malformed URL such as
`"http://[x"`. -/
def urlparseRedirectError : String := "ValueError: Invalid IPv6 URL"

/-- Domain-details evidence.  `creationAgeDays` abstracts the
`datetime.fromisoformat`/`datetime.now()` age computation of the source:
`none` = absent or falsy `creation_date`, `some none` = present but
unparseable (the `except: pass` branch), `some (some d)` = parsed with an
age of `d` days.  `sslIssuer`: `none` = the `ssl_issuer` key is absent
(so `.get('ssl_issuer', '')` yields `''`), `some none` = the key is
present holding `None` — the endpoint's `DomainDetails.dict()` always
includes it, with `None` whenever the client omits the field — and
`some (some s)` = a string value. -/
structure DomainInfo where
  sslValid : Option Bool
  creationAgeDays : Option (Option ℤ)
  sslIssuer : Option (Option String)
deriving DecidableEq, Repr

/-- `analyze_domain_details` (day-count text of the age indicators
omitted).  NOT total: `domain_info.get('ssl_issuer', '').lower()` raises
`AttributeError` when the key is present holding `None` (the `.get`
default applies only to an absent key); the `.error` result models that
uncaught exception aborting the call. -/
def analyze_domain_details (domainInfo : Option DomainInfo) :
    Except String (ℚ × List String) :=
  match domainInfo with
  | none => .ok (0, [])
  | some d =>
    let x : ℚ × List String := (0, [])
    let x :=
      if d.sslValid = some false then
        (x.1 + 30, x.2 ++ ["Invalid or expired SSL certificate"])
      else x
    let x :=
      match d.creationAgeDays with
      | some (some age) =>
        if age < 30 then (x.1 + 40, x.2 ++ ["Very new domain"])
        else if age < 90 then (x.1 + 25, x.2 ++ ["Recently created domain"])
        else x
      | some none => x
      | none => x
    match d.sslIssuer with
    | some none => .error sslIssuerNoneError
    | some (some issuer) =>
      if issuer ≠ "" && strContains (lowerString issuer) "let's encrypt" then
        .ok (x.1 + 5, x.2)
      else .ok x
    | none => .ok x

/-- HTML-content evidence dictionary fields. -/
structure HtmlAnalysis where
  hasPaymentForms : Bool
  hasPasswordFields : Bool
  hasOtpFields : Bool
  externalScripts : List String
  suspiciousPatterns : List String
deriving DecidableEq, Repr

/-- `analyze_html_content`. -/
def analyze_html_content (htmlAnalysis : Option HtmlAnalysis) : ℚ × List String :=
  match htmlAnalysis with
  | none => (0, [])
  | some h =>
    let x : ℚ × List String := (0, [])
    let x :=
      if h.hasPaymentForms then (x.1 + 20, x.2 ++ ["Contains payment form"]) else x
    let x :=
      if h.hasPasswordFields then
        (x.1 + 15, x.2 ++ ["Contains password input fields"])
      else x
    let x :=
      if h.hasOtpFields then
        (x.1 + 25, x.2 ++ ["Requests OTP/PIN (potential phishing)"])
      else x
    let x :=
      if 10 < h.externalScripts.length then
        (x.1 + 15,
         x.2 ++ ["Many external scripts loaded (" ++
                 toString h.externalScripts.length ++ ")"])
      else x
    let x :=
      if h.suspiciousPatterns ≠ [] then
        (x.1 + (h.suspiciousPatterns.length : ℚ) * 10,
         x.2 ++ (h.suspiciousPatterns.take 3).map (fun p => "Suspicious HTML: " ++ p))
      else x
    (pyMin x.1 100, x.2)

/-- Redirect-chain evidence; each entry of `redirects` is the `urlparse`
outcome of one client-supplied redirect URL: `some netloc` when it
parses, `none` when `urlparse` raises (for example on `"http://[x"`),
mirroring how parse outcomes enter `calculate_url_risk_score` — except
that here the source does not catch the exception. -/
structure RedirectData where
  count : ℕ
  redirects : List (Option String)
  suspicious : Bool
deriving DecidableEq, Repr

/-- The list comprehension `[urlparse(url).netloc for url in redirects]`:
evaluated left to right, raising on the first unparseable URL. -/
def extractNetlocs : List (Option String) → Except String (List String)
  | [] => .ok []
  | none :: _ => .error urlparseRedirectError
  | some netloc :: rest =>
    match extractNetlocs rest with
    | .ok l => .ok (netloc :: l)
    | .error e => .error e

/-- `analyze_redirect_chain` (not capped by the source).  NOT total: the
domain-change check runs `urlparse` uncaught over the client-supplied
redirect URLs, so one malformed entry raises `ValueError`; the `.error`
result models that exception aborting the call. -/
def analyze_redirect_chain (redirectData : Option RedirectData) :
    Except String (ℚ × List String) :=
  match redirectData with
  | none => .ok (0, [])
  | some r =>
    let x : ℚ × List String := (0, [])
    let x :=
      if 3 < r.count then
        (x.1 + 30, x.2 ++ ["Many redirects (" ++ toString r.count ++ ") - potential hiding"])
      else if 1 < r.count then
        (x.1 + 15, x.2 ++ ["Multiple redirects (" ++ toString r.count ++ ")"])
      else x
    let x :=
      if r.suspicious then
        (x.1 + 25, x.2 ++ ["Suspicious redirect pattern detected"])
      else x
    if r.redirects ≠ [] then
      match extractNetlocs r.redirects with
      | .error e => .error e
      | .ok domains =>
        let uniqueDomains := domains.dedup.length
        if 2 < uniqueDomains then
          .ok (x.1 + 20,
               x.2 ++ ["Redirects through " ++ toString uniqueDomains ++ " different domains"])
        else .ok x
    else .ok x

/-- UPI-intent evidence dictionary fields (string fields default to `""`
as in the source's `.get(..., '')`). -/
structure UpiIntentData where
  intentType : String
  amount : Option ℚ
  payeeAddress : String
  transactionNote : String
deriving DecidableEq, Repr

/-- The collect-request warning text. -/
def collectRequestWarning : String :=
  "🚨 DANGER: This is a COLLECT REQUEST! Money will be DEDUCTED from YOUR account, not sent to someone. Scammers use fake collect QR codes to steal money. DO NOT APPROVE!"

/-- `analyze_fake_collect_request` on a string rendering of the evidence
(`str(upi_data).lower()` membership check). -/
def analyze_fake_collect_request (s : String) : Bool × String :=
  let sl := lowerString s
  if strContains sl "collect" || strContains sl "mode=02" || strContains sl "mode=collect" then
    (true, collectRequestWarning)
  else (false, "")

/-- `analyze_upi_intent` (risk_scoring.py).  The source stringifies the
whole evidence dictionary for the collect check; only its string-valued
fields can contain the searched patterns, so the check runs on their
concatenation.  Amount text formatting of indicators is omitted. -/
def analyze_upi_intent (upiData : Option UpiIntentData) : ℚ × List String :=
  match upiData with
  | none => (0, [])
  | some u =>
    let x : ℚ × List String := (0, [])
    let collectCheck := analyze_fake_collect_request
      (u.intentType ++ " " ++ u.payeeAddress ++ " " ++ u.transactionNote)
    let x := if collectCheck.1 then (x.1 + 70, x.2 ++ [collectCheck.2]) else x
    let x :=
      match u.amount with
      | some a =>
        if a ≠ 0 then
          if 50000 < a then (x.1 + 25, x.2 ++ ["Very high amount"])
          else if 10000 < a then (x.1 + 15, x.2 ++ ["High amount"])
          else x
        else x
      | none => x
    let x :=
      if u.payeeAddress ≠ "" then
        let x :=
          if tenDigitsThen "@".data u.payeeAddress.data then
            (x.1 + 15, x.2 ++ ["Personal phone number UPI (not merchant)"])
          else x
        if upiFraudPatternHit (lowerString u.payeeAddress) then
          (x.1 + 20, x.2 ++ ["Suspicious UPI ID pattern"])
        else x
      else x
    let x :=
      if u.transactionNote ≠ "" &&
         (["urgent", "help", "emergency", "prize", "refund"].any
            (fun w => strContains (lowerString u.transactionNote) w)) then
        (x.1 + 15, x.2 ++ ["Suspicious transaction note"])
      else x
    (pyMin x.1 100, x.2)

/-- Device-security evidence dictionary fields. -/
structure DeviceInfo where
  isNewDevice : Bool
  simChangedRecently : Bool
  screenSharingAppsDetected : List String
deriving DecidableEq, Repr

/-- `analyze_device_security` (risk_scoring.py). -/
def analyze_device_security (deviceInfo : Option DeviceInfo) : ℚ × List String :=
  match deviceInfo with
  | none => (0, [])
  | some d =>
    let x : ℚ × List String := (0, [])
    let x :=
      if d.isNewDevice then (x.1 + 20, x.2 ++ ["⚠️ Transaction from NEW DEVICE"]) else x
    let x :=
      if d.simChangedRecently then
        (x.1 + 40, x.2 ++ ["🚨 CRITICAL: Recent SIM card change detected"])
      else x
    let x :=
      if d.screenSharingAppsDetected ≠ [] then
        (x.1 + 50,
         x.2 ++ ["🚨 CRITICAL: Screen sharing app detected: " ++
                 joinWith ", " d.screenSharingAppsDetected])
      else x
    (pyMin x.1 100, x.2)

/-! ## `risk_scoring.py`: `calculate_transaction_risk_score` and the
transaction endpoint of `main.py` -/

/-- The known UPI provider suffixes of `calculate_transaction_risk_score`. -/
def knownUpiProviders : List String :=
  ["paytm", "phonepe", "googlepay", "okhdfcbank", "okicici", "okaxis", "sbi", "ybl"]

/-- `calculate_transaction_risk_score` (risk_scoring.py).  Amount/average
text formatting of the indicator strings is omitted; the `details`
dictionary is omitted. -/
def calculate_transaction_risk_score (amount : ℚ) (recipientUpi : String)
    (recipientName note : Option String) : ℚ × List String :=
  let x : ℚ × List String := (0, [])
  let x :=
    if 50000 < amount then (x.1 + 20, x.2 ++ ["Large amount"])
    else if 10000 < amount then (x.1 + 10, x.2 ++ ["Medium-high amount"])
    else x
  let upiLower := lowerString recipientUpi
  let x :=
    if tenDigitsThen "@".data upiLower.data then
      (x.1 + 15, x.2 ++ ["Personal mobile number UPI"])
    else x
  let x :=
    if upiFraudPatternHit upiLower then
      (x.1 + 25, x.2 ++ ["Suspicious UPI ID pattern"])
    else x
  let x :=
    match recipientName with
    | some name =>
      if name ≠ "" && recipientUpi ≠ "" then
        let nameParts := splitWords (lowerString name)
        let upiPrefix := lowerString ((strSplitOnChar recipientUpi '@').headD "")
        let nameMatch :=
          nameParts.any (fun part => 2 < part.length && strContains upiPrefix part)
        if !nameMatch &&
           !(["paytm", "phonepe", "googlepay"].any (fun pr => strContains upiLower pr)) then
          (x.1 + 15, x.2 ++ ["Name doesn't match UPI ID"])
        else x
      else x
    | none => x
  let x :=
    match note with
    | some n =>
      if n ≠ "" &&
         (["urgent", "help", "emergency", "please", "family"].any
            (fun k => strContains (lowerString n) k)) then
        (x.1 + 10, x.2 ++ ["Suspicious transaction note"])
      else x
    | none => x
  let upiProvider : Option String :=
    if strContains recipientUpi "@" then some ((strSplitOnChar recipientUpi '@').getLastD "")
    else none
  let x :=
    match upiProvider with
    | some p =>
      if p ≠ "" && !(knownUpiProviders.any (fun kp => strContains p kp)) then
        (x.1 + 10, x.2 ++ ["Unknown UPI provider"])
      else x
    | none => x
  (pyMin x.1 100, x.2)

/-- The `payee_info` record consulted by the transaction endpoint for
known payees. -/
structure PayeeInfo where
  transactionCount : ℕ
  averageAmount : ℚ
  isTrusted : Bool
deriving DecidableEq, Repr

/-- The final classified score of the `/analyze/transaction` endpoint
(`main.analyze_transaction`): the capped base score from
`calculate_transaction_risk_score`, then the new-payee surcharges
(`+25`, and `+15` when the amount exceeds 5000) or — for a known payee —
the `+20` amount-anomaly surcharge and the trusted-payee discount
`max(0, score - 15)`.  This value is handed to `get_risk_level` and
reported as the response's `risk_score`. -/
def transaction_endpoint_score (amount : ℚ) (recipientUpi : String)
    (recipientName note : Option String) (isNewPayee : Bool)
    (payeeInfo : PayeeInfo) : ℚ :=
  let base := (calculate_transaction_risk_score amount recipientUpi recipientName note).1
  if isNewPayee then
    let s := base + 25
    if 5000 < amount then s + 15 else s
  else
    let s := if payeeInfo.averageAmount * 3 < amount then base + 20 else base
    if payeeInfo.isTrusted then pyMax 0 (s - 15) else s

/-! ## Claim C4 -/

/-- C4: at this concrete transaction request (₹60,000 to a new payee
`test@roguebank`, name "Aaaa Bbbb", note "urgent help please") the
endpoint computes base score 80, caps it (a no-op here), then adds the
new-payee surcharges +25 and +15 after the cap: the final classified
score is 120 ∉ [0,100].  `get_risk_level` receives 120 (classifying
"critical"), and the endpoint's own response model, which declares
`risk_score` with `le=100`, then rejects the value. -/
theorem C4_transaction_score_exceeds_100 :
    transaction_endpoint_score 60000 "test@roguebank" (some "Aaaa Bbbb")
      (some "urgent help please") true ⟨0, 0, false⟩ = 120 ∧
    ¬(transaction_endpoint_score 60000 "test@roguebank" (some "Aaaa Bbbb")
        (some "urgent help please") true ⟨0, 0, false⟩ ≤ 100) ∧
    (calculate_transaction_risk_score 60000 "test@roguebank" (some "Aaaa Bbbb")
      (some "urgent help please")).1 = 80 ∧
    get_risk_level 120 = "critical" := by
  have hbase : (calculate_transaction_risk_score 60000 "test@roguebank"
      (some "Aaaa Bbbb") (some "urgent help please")).1 = 80 := by
    norm_num +decide [calculate_transaction_risk_score, pyMin, pyMax]
  have h : transaction_endpoint_score 60000 "test@roguebank" (some "Aaaa Bbbb")
      (some "urgent help please") true ⟨0, 0, false⟩ = 120 := by
    norm_num +decide [transaction_endpoint_score, calculate_transaction_risk_score,
      pyMin, pyMax]
  refine ⟨h, ?_, hbase, by norm_num [get_risk_level]⟩
  rw [h]
  norm_num

/-! ## Claim C5 -/

/-- `pyMin` of two nonnegative values is nonnegative. -/
theorem pyMin_nonneg (a b : ℚ) (ha : 0 ≤ a) (hb : 0 ≤ b) : 0 ≤ pyMin a b := by
  unfold pyMin
  split_ifs <;> assumption

/-- `pyMin a b` is at most `b`. -/
theorem pyMin_le_right (a b : ℚ) : pyMin a b ≤ b := by
  unfold pyMin
  split_ifs <;> linarith

/-- The HTTPS step never decreases a nonnegative score below zero. -/
theorem urlStepHttps_nonneg (scheme : String) (x : ℚ × List String)
    (h : 0 ≤ x.1) : 0 ≤ (urlStepHttps scheme x).1 := by
  unfold urlStepHttps
  try dsimp only
  split_ifs <;> (try dsimp only) <;> linarith

/-- The IP-literal step preserves score nonnegativity. -/
theorem urlStepIp_nonneg (domain : String) (x : ℚ × List String)
    (h : 0 ≤ x.1) : 0 ≤ (urlStepIp domain x).1 := by
  unfold urlStepIp
  try dsimp only
  split_ifs <;> (try dsimp only) <;> linarith

/-- The shortener step preserves score nonnegativity. -/
theorem urlStepShortener_nonneg (domain : String) (x : ℚ × List String)
    (h : 0 ≤ x.1) : 0 ≤ (urlStepShortener domain x).1 := by
  unfold urlStepShortener
  try dsimp only
  split_ifs <;> (try dsimp only) <;> linarith

/-- The keyword step preserves score nonnegativity. -/
theorem urlStepKeywords_nonneg (fullUrl : String) (x : ℚ × List String)
    (h : 0 ≤ x.1) : 0 ≤ (urlStepKeywords fullUrl x).1 := by
  unfold urlStepKeywords
  have hmin : 0 ≤ pyMin ((suspiciousUrlPatternHits fullUrl : ℚ) * 10) 30 :=
    pyMin_nonneg _ _ (by positivity) (by norm_num)
  try dsimp only
  split_ifs <;> (try dsimp only) <;> linarith

/-- The legitimate-domain discount step preserves score nonnegativity. -/
theorem urlStepLegit_nonneg (isLegitimate : Bool) (x : ℚ × List String)
    (h : 0 ≤ x.1) : 0 ≤ (urlStepLegit isLegitimate x).1 := by
  unfold urlStepLegit pyMax
  try dsimp only
  split_ifs <;> (try dsimp only) <;> linarith

/-- The subdomain step preserves score nonnegativity. -/
theorem urlStepSubdomains_nonneg (domain : String) (x : ℚ × List String)
    (h : 0 ≤ x.1) : 0 ≤ (urlStepSubdomains domain x).1 := by
  unfold urlStepSubdomains
  try dsimp only
  split_ifs <;> (try dsimp only) <;> linarith

/-- The URL-length step preserves score nonnegativity. -/
theorem urlStepLength_nonneg (url : String) (x : ℚ × List String)
    (h : 0 ≤ x.1) : 0 ≤ (urlStepLength url x).1 := by
  unfold urlStepLength
  try dsimp only
  split_ifs <;> (try dsimp only) <;> linarith

/-- The phishing-keyword step preserves score nonnegativity. -/
theorem urlStepPhishing_nonneg (domain : String) (x : ℚ × List String)
    (h : 0 ≤ x.1) : 0 ≤ (urlStepPhishing domain x).1 := by
  unfold urlStepPhishing
  try dsimp only
  split_ifs <;> (try dsimp only) <;> linarith

/-- The typosquatting step preserves score nonnegativity. -/
theorem urlStepTyposquat_nonneg (domain : String) (x : ℚ × List String)
    (h : 0 ≤ x.1) : 0 ≤ (urlStepTyposquat domain x).1 := by
  unfold urlStepTyposquat
  try dsimp only
  split_ifs <;> (try dsimp only) <;> linarith

/-- The homograph step preserves score nonnegativity. -/
theorem urlStepHomograph_nonneg (domain : String) (x : ℚ × List String)
    (h : 0 ≤ x.1) : 0 ≤ (urlStepHomograph domain x).1 := by
  unfold urlStepHomograph
  try dsimp only
  split_ifs <;> (try dsimp only) <;> linarith

/-- The payment-page step preserves score nonnegativity. -/
theorem urlStepPayment_nonneg (path query : String) (isLegitimate : Bool)
    (x : ℚ × List String) (h : 0 ≤ x.1) :
    0 ≤ (urlStepPayment path query isLegitimate x).1 := by
  unfold urlStepPayment
  try dsimp only
  split_ifs <;> (try dsimp only) <;> linarith

/-- C5 (amended): missing or falsy evidence (an absent/empty evidence
dictionary) yields a zero score with no indicators for the
domain-details, HTML-content, redirect-chain, UPI-intent and
device-security analyzers, and the URL detector catches its parse
failure and keeps its score within [0,100] on parsed URLs — but an
unparseable URL does not yield a zero score (the `except` branch returns
the fixed score 50 with the single indicator "Unable to parse URL"), and
the detectors are not all total: `analyze_domain_details` raises
AttributeError whenever the evidence carries `ssl_issuer=None`
(whatever the other fields hold), and `analyze_redirect_chain` raises
ValueError from uncaught `urlparse` whenever a redirect URL is
malformed. -/
theorem C5_detector_failure_policy (url : String) (p : UrlParts) :
    analyze_domain_details none = .ok (0, []) ∧
    analyze_html_content none = (0, []) ∧
    analyze_redirect_chain none = .ok (0, []) ∧
    analyze_upi_intent none = (0, []) ∧
    analyze_device_security none = (0, []) ∧
    calculate_url_risk_score url none = (50, ["Unable to parse URL"]) ∧
    (∀ sslValid creationAge,
      analyze_domain_details (some ⟨sslValid, creationAge, some none⟩) =
        .error sslIssuerNoneError) ∧
    (∀ count suspicious rest,
      analyze_redirect_chain (some ⟨count, none :: rest, suspicious⟩) =
        .error urlparseRedirectError) ∧
    0 ≤ (calculate_url_risk_score url (some p)).1 ∧
    (calculate_url_risk_score url (some p)).1 ≤ 100 := by
  refine ⟨rfl, rfl, rfl, rfl, rfl, rfl, fun sslValid creationAge => rfl,
    fun count suspicious rest => ?_, ?_, ?_⟩
  · unfold analyze_redirect_chain extractNetlocs
    simp
  · show 0 ≤ (calculate_url_risk_score url (some p)).1
    unfold calculate_url_risk_score
    dsimp only
    refine pyMin_nonneg _ _ ?_ (by norm_num)
    apply urlStepPayment_nonneg
    apply urlStepHomograph_nonneg
    apply urlStepTyposquat_nonneg
    apply urlStepPhishing_nonneg
    apply urlStepLength_nonneg
    apply urlStepSubdomains_nonneg
    apply urlStepLegit_nonneg
    apply urlStepKeywords_nonneg
    apply urlStepShortener_nonneg
    apply urlStepIp_nonneg
    apply urlStepHttps_nonneg
    norm_num
  · show (calculate_url_risk_score url (some p)).1 ≤ 100
    unfold calculate_url_risk_score
    dsimp only
    exact pyMin_le_right _ _

/-- C5 counterexample: the claim fails in two ways at concrete inputs —
on an unparseable URL (`urlparse` raises on the unmatched IPv6 bracket)
the URL detector returns score 50 with one indicator, not the claimed
zero score with no indicators; and two detectors do raise: a
domain-details payload carrying `ssl_issuer=None` hits `None.lower()`
(AttributeError), and a redirect chain containing the malformed URL
`"http://[x"` hits uncaught `urlparse` (ValueError). -/
theorem C5_counterexample :
    calculate_url_risk_score "http://[invalid" none = (50, ["Unable to parse URL"]) ∧
    (calculate_url_risk_score "http://[invalid" none).1 ≠ 0 ∧
    (calculate_url_risk_score "http://[invalid" none).2 ≠ ([] : List String) ∧
    analyze_domain_details (some ⟨none, none, some none⟩) =
      .error sslIssuerNoneError ∧
    analyze_redirect_chain (some ⟨1, [none], false⟩) =
      .error urlparseRedirectError := by
  refine ⟨rfl, by norm_num [calculate_url_risk_score],
    by simp [calculate_url_risk_score], rfl, rfl⟩

end PaisaGuardian
